import Mathlib

/-!
# Shallow embedding of the SPIMotorController firmware

This file embeds the concurrent-UI core of the SPI motor controller
(`MSPI.c`, `SPI.c`, `PWM.c`, `uCOSKey.h`) and proves or refutes the
specification's claims about it.

Modelling conventions:
* Machine integers (`INT8U`, `INT16U`) are `Nat` with an explicit
  `% 2^8` / `% 2^16` at every store into a variable of that type.
* The functions `setSpiData` / `setPwmRate` take their pointer argument as
  an `Option Nat`: `some v` is a pointer to a variable holding `v`, and
  `none` is the null pointer produced when the integer constant
  `EMERGENCY_STOP = 0` is passed in the pointer position (as the source
  does at `MSPI.c:274`, `MSPI.c:275` and `MSPI.c:371`).  Dereferencing the
  null pointer on this MCU reads the flash word at address `0`, whose
  contents are outside the program; the model takes it as a parameter
  `mem0` (the byte read through an `INT8U *` is its low byte).
* LCD driver calls are recorded as a trace of `Effect`s, and the values
  stored through `setSpiData` / `setPwmRate` are both recorded in the
  trace and reflected in the module variables `spiMsg` / `pwmrate`.
* Semaphores are modelled by their post counters.
-/

/-! ## Key codes (`uCOSKey.h`) -/

def ONE_KEY : Nat := 0x31
def TWO_KEY : Nat := 0x32
def THR_KEY : Nat := 0x33
def FOUR_KEY : Nat := 0x34
def FIV_KEY : Nat := 0x35
def SIX_KEY : Nat := 0x36
def SEV_KEY : Nat := 0x37
def EGT_KEY : Nat := 0x38
def NIN_KEY : Nat := 0x39
def ZERO_KEY : Nat := 0x30
def STAR_KEY : Nat := 0x2A
def NUM_KEY : Nat := 0x23
def A_KEY : Nat := 0x11
def B_KEY : Nat := 0x12
def C_KEY : Nat := 0x13
def D_KEY : Nat := 0x14
def NUMBER_KEY_TO_DEC_FACTOR : Nat := 48

/-! ## Constants from `MSPI.c` -/

def NO_FAULT : Nat := 0x00
def EMERGENCY_STOP : Nat := 0x0000
def STATUS_ROW : Nat := 1
def FIRST_COL : Nat := 1
def UI_ROW : Nat := 2
def FAULT_MSG_OUT_COLLEM : Nat := 8
def UI_PWM_MSG_COL : Nat := 10
def UI_OUT_COL : Nat := 5
def UI_PWM_WRITE : Nat := 14
def UI_PWM_TENS : Nat := 15
def UI_PWM_ONES : Nat := 16
def CURSOR_ON : Nat := 1
def CURSOR_OFF : Nat := 0
def CURSOR_BLINK : Nat := 1

def OUTPUT_ONE_MASK : Nat := 1
def OUTPUT_TWO_MASK : Nat := 2
def OUTPUT_THR_MASK : Nat := 4
def OUTPUT_FOU_MASK : Nat := 8
def OUTPUT_FIV_MASK : Nat := 16
def OUTPUT_SIX_MASK : Nat := 32
def OUTPUT_SEV_MASK : Nat := 64
def OUTPUT_EGT_MASK : Nat := 128

def OUT_ONE_MSG : String := "OUT1"
def OUT_TWO_MSG : String := "OUT2"
def OUT_THR_MSG : String := "OUT3"
def OUT_FOU_MSG : String := "OUT4"
def OUT_FIV_MSG : String := "OUT5"
def OUT_SIX_MSG : String := "OUT6"
def OUT_SEV_MSG : String := "OUT7"
def OUT_EGT_MSG : String := "OUT8"
def MULIT_FAULT_MSG : String := "Many"
def FAULT_MSG : String := "Fault: "
def SET_MSG : String := "SET:"
def PWM_MSG : String := "PWM%"
def NO_OUTPUT_MSG : String := "Outputs Off"

/-- The two LCD layers come from the excluded display driver
(`LcdLayered.h`); only their distinctness matters here. -/
def UI_LAYER : Nat := 0

def FAULT_LAYER : Nat := 1

/-! ## UI state machine types (`MSPI.c:113` and `MSPI.c:114`) -/

inductive SYS_STATE
  | RUNNING
  | ADJUST
  | FAULT
  deriving DecidableEq, Repr

inductive SETTING_STATE
  | OUT
  | TENS
  | ONES
  deriving DecidableEq, Repr

/-- Calls to the display driver and to the SerialLink/PWM setters, recorded
in program order. `setSpiCall` / `setPwmCall` carry the value actually
stored by the call. -/
inductive Effect
  | lcdDispString (row col layer : Nat) (msg : String)
  | lcdDispClrLine (row layer : Nat)
  | lcdDispClear (layer : Nat)
  | lcdDispDecByte (row col layer : Nat) (value lzero : Nat)
  | lcdCursor (row col layer : Nat) (onoff blink : Nat)
  | lcdShowLayer (layer : Nat)
  | lcdHideLayer (layer : Nat)
  | setSpiCall (stored : Nat)
  | setPwmCall (stored : Nat)
  deriving DecidableEq, Repr

/-- Combined state: the `UITask` locals (`currentstate`, `currentplace`,
`whichOutput`, `nextPWMRate`, `nextSpiMsg`; `MSPI.c:249` … `MSPI.c:256`),
the SPI module variable `spiMsg` (`SPI.c:21`), the MSPI module variable
`pwmrate` (`MSPI.c:108`), and the post counters of the `NewSpiData` and
`NewPwmRate` semaphores. -/
structure Sys where
  currentstate : SYS_STATE
  currentplace : SETTING_STATE
  whichOutput : Nat
  nextPWMRate : Nat
  nextSpiMsg : Nat
  spiMsg : Nat
  pwmrate : Nat
  newSpiDataSemCount : Nat
  newPwmRateSemCount : Nat
  deriving DecidableEq, Repr

/-- Dereference of an `INT16U *` argument: `none` is the null pointer,
read as the 16-bit word at address `0` (`mem0`). -/
def derefWord (mem0 : Nat) : Option Nat → Nat
  | some v => v % 65536
  | none => mem0 % 65536

/-- Dereference of an `INT8U *` argument: `none` is the null pointer,
read as the byte at address `0` (low byte of `mem0`). -/
def derefByte (mem0 : Nat) : Option Nat → Nat
  | some v => v % 256
  | none => mem0 % 256

/-- `SPI.c:91`–`SPI.c:96`: `setSpiData` pends on the `SpiDataKey` mutex,
stores `*passmsg` into `spiMsg`, posts the mutex, then posts the
`NewSpiData` semaphore. -/
def setSpiData (mem0 : Nat) (passmsg : Option Nat) (s : Sys) : Sys × List Effect :=
  let v := derefWord mem0 passmsg
  ({ s with spiMsg := v, newSpiDataSemCount := s.newSpiDataSemCount + 1 },
   [Effect.setSpiCall v])

/-- `MSPI.c:236`–`MSPI.c:241`: `setPwmRate` pends on the `PwmRateKey`
mutex, stores `*passpwm` into `pwmrate`, posts the mutex, then posts the
`NewPwmRate` semaphore. -/
def setPwmRate (mem0 : Nat) (passpwm : Option Nat) (s : Sys) : Sys × List Effect :=
  let v := derefByte mem0 passpwm
  ({ s with pwmrate := v, newPwmRateSemCount := s.newPwmRateSemCount + 1 },
   [Effect.setPwmCall v])

/-! ## The `UITask` loop body (`MSPI.c:263`–`MSPI.c:436`)

Each queue message is a pair `(msg_size, copiedmsg)`: `UIKeySrvTask`
posts key presses with size 1, `UISPISrvTask` posts fault words with
size 2, and `UITask` dispatches on the size. -/

/-- `MSPI.c:301`–`MSPI.c:333` (`switch` case `OUT`): select which output
to use. Note the source pairs `whichOutput = 4` with `OUTPUT_ONE_MASK`
and `whichOutput = 7` with `OUTPUT_THR_MASK`. -/
def adjustOutStep (copiedmsg : Nat) (s : Sys) : Sys × List Effect :=
  if copiedmsg = FOUR_KEY then
    ({ s with whichOutput := 4, nextSpiMsg := OUTPUT_ONE_MASK,
              currentplace := SETTING_STATE.TENS },
     [Effect.lcdDispString UI_ROW UI_OUT_COL UI_LAYER OUT_FOU_MSG,
      Effect.lcdDispString UI_ROW UI_PWM_MSG_COL UI_LAYER PWM_MSG,
      Effect.lcdCursor UI_ROW UI_PWM_TENS UI_LAYER CURSOR_ON CURSOR_BLINK,
      Effect.lcdShowLayer UI_LAYER])
  else if copiedmsg = SEV_KEY then
    ({ s with whichOutput := 7, nextSpiMsg := OUTPUT_THR_MASK,
              currentplace := SETTING_STATE.TENS },
     [Effect.lcdDispString UI_ROW UI_OUT_COL UI_LAYER OUT_SEV_MSG,
      Effect.lcdDispString UI_ROW UI_PWM_MSG_COL UI_LAYER PWM_MSG,
      Effect.lcdCursor UI_ROW UI_PWM_TENS UI_LAYER CURSOR_ON CURSOR_BLINK,
      Effect.lcdShowLayer UI_LAYER])
  else
    (s, [])

/-- `MSPI.c:334`–`MSPI.c:354` (`switch` case `TENS`): set the tens place
of the PWM rate, or backspace to output selection. -/
def adjustTensStep (copiedmsg : Nat) (s : Sys) : Sys × List Effect :=
  if ZERO_KEY ≤ copiedmsg ∧ copiedmsg ≤ NIN_KEY then
    let nv := (10 * (copiedmsg - NUMBER_KEY_TO_DEC_FACTOR)
                + (s.nextPWMRate - 10 * (s.nextPWMRate / 10))) % 256
    ({ s with nextPWMRate := nv, currentplace := SETTING_STATE.ONES },
     [Effect.lcdDispDecByte UI_ROW UI_PWM_WRITE UI_LAYER nv 0,
      Effect.lcdCursor UI_ROW UI_PWM_ONES UI_LAYER CURSOR_ON CURSOR_BLINK,
      Effect.lcdShowLayer UI_LAYER])
  else if copiedmsg = B_KEY then
    ({ s with currentplace := SETTING_STATE.OUT, nextPWMRate := 0 },
     [Effect.lcdCursor UI_ROW UI_OUT_COL UI_LAYER CURSOR_ON CURSOR_BLINK])
  else
    (s, [])

/-- `MSPI.c:355`–`MSPI.c:393` (`switch` case `ONES`): set the ones place,
backspace to the tens place, or commit the displayed value. -/
def adjustOnesStep (mem0 copiedmsg : Nat) (s : Sys) : Sys × List Effect :=
  if ZERO_KEY ≤ copiedmsg ∧ copiedmsg ≤ NIN_KEY then
    let nv := ((copiedmsg - NUMBER_KEY_TO_DEC_FACTOR)
                + 10 * (s.nextPWMRate / 10)) % 256
    ({ s with nextPWMRate := nv },
     [Effect.lcdDispDecByte UI_ROW UI_PWM_WRITE UI_LAYER nv 0,
      Effect.lcdCursor UI_ROW UI_PWM_ONES UI_LAYER CURSOR_ON CURSOR_BLINK])
  else if copiedmsg = B_KEY then
    ({ s with currentplace := SETTING_STATE.TENS },
     [Effect.lcdCursor UI_ROW UI_PWM_TENS UI_LAYER CURSOR_ON CURSOR_BLINK])
  else if copiedmsg = A_KEY then
    let sends :=
      if s.nextPWMRate = 0 then
        setSpiData mem0 (some s.nextSpiMsg) s
      else
        let sa := setSpiData mem0 none s
        let sb := setPwmRate mem0 (some s.nextPWMRate) sa.1
        (sb.1, sa.2 ++ sb.2)
    let statusEffects :=
      [Effect.lcdDispClear UI_LAYER]
      ++ (if s.whichOutput = 4 then
            [Effect.lcdDispString STATUS_ROW FIRST_COL UI_LAYER OUT_FOU_MSG]
          else if s.whichOutput = 7 then
            [Effect.lcdDispString STATUS_ROW FIRST_COL UI_LAYER OUT_SEV_MSG]
          else [])
      ++ [Effect.lcdDispString STATUS_ROW UI_PWM_MSG_COL UI_LAYER PWM_MSG,
          Effect.lcdDispDecByte STATUS_ROW UI_PWM_WRITE UI_LAYER s.nextPWMRate 0,
          Effect.lcdCursor UI_ROW FIRST_COL UI_LAYER CURSOR_OFF CURSOR_OFF]
    ({ sends.1 with currentstate := SYS_STATE.RUNNING },
     sends.2 ++ statusEffects)
  else
    (s, [])

/-- `MSPI.c:300`–`MSPI.c:394`: the `switch (currentplace)` dispatch inside
the `ADJUST` branch. -/
def adjustStep (mem0 copiedmsg : Nat) (s : Sys) : Sys × List Effect :=
  match s.currentplace with
  | SETTING_STATE.OUT => adjustOutStep copiedmsg s
  | SETTING_STATE.TENS => adjustTensStep copiedmsg s
  | SETTING_STATE.ONES => adjustOnesStep mem0 copiedmsg s

/-- `MSPI.c:404`–`MSPI.c:428`: choose the fault banner text by an exact
equality chain over the eight output masks. -/
def faultOutMsg (copiedmsg : Nat) : String :=
  if copiedmsg = OUTPUT_ONE_MASK then OUT_ONE_MSG
  else if copiedmsg = OUTPUT_TWO_MASK then OUT_TWO_MSG
  else if copiedmsg = OUTPUT_THR_MASK then OUT_THR_MSG
  else if copiedmsg = OUTPUT_FOU_MASK then OUT_FOU_MSG
  else if copiedmsg = OUTPUT_FIV_MASK then OUT_FIV_MSG
  else if copiedmsg = OUTPUT_SIX_MASK then OUT_SIX_MSG
  else if copiedmsg = OUTPUT_SEV_MASK then OUT_SEV_MSG
  else if copiedmsg = OUTPUT_EGT_MASK then OUT_EGT_MSG
  else MULIT_FAULT_MSG

/-- One iteration of the `UITask` loop (`MSPI.c:263`–`MSPI.c:436`) on a
message of size `msg_size` with contents `copiedmsg`. -/
def UITaskStep (mem0 : Nat) (msg_size copiedmsg : Nat) (s : Sys) : Sys × List Effect :=
  if msg_size = 1 then
    if copiedmsg = D_KEY then
      let s1 := setSpiData mem0 none s
      let s2 := setPwmRate mem0 none s1.1
      ({ s2.1 with currentstate := SYS_STATE.RUNNING },
       s1.2 ++ s2.2
        ++ [Effect.lcdDispClrLine STATUS_ROW UI_LAYER,
            Effect.lcdDispString STATUS_ROW FIRST_COL UI_LAYER NO_OUTPUT_MSG,
            Effect.lcdHideLayer FAULT_LAYER,
            Effect.lcdShowLayer UI_LAYER])
    else if s.currentstate = SYS_STATE.RUNNING ∧ copiedmsg ≠ D_KEY then
      if copiedmsg = A_KEY then
        ({ s with currentstate := SYS_STATE.ADJUST,
                  currentplace := SETTING_STATE.OUT,
                  whichOutput := 0, nextPWMRate := 0, nextSpiMsg := 0 },
         [Effect.lcdDispString UI_ROW FIRST_COL UI_LAYER SET_MSG,
          Effect.lcdCursor UI_ROW UI_OUT_COL UI_LAYER CURSOR_ON CURSOR_BLINK])
      else
        (s, [])
    else if s.currentstate = SYS_STATE.ADJUST ∧ copiedmsg ≠ D_KEY then
      adjustStep mem0 copiedmsg s
    else
      (s, [])
  else if msg_size = 2 then
    if copiedmsg = NO_FAULT ∧ s.currentstate = SYS_STATE.FAULT then
      ({ s with currentstate := SYS_STATE.RUNNING },
       [Effect.lcdHideLayer FAULT_LAYER, Effect.lcdShowLayer UI_LAYER])
    else
      ({ s with currentstate := SYS_STATE.FAULT },
       [Effect.lcdHideLayer UI_LAYER,
        Effect.lcdDispString STATUS_ROW FIRST_COL FAULT_LAYER FAULT_MSG,
        Effect.lcdDispString STATUS_ROW FAULT_MSG_OUT_COLLEM FAULT_LAYER
          (faultOutMsg copiedmsg),
        Effect.lcdShowLayer FAULT_LAYER])
  else
    (s, [])

/-- Run `UITask` on a list of queued messages, concatenating the traces. -/
def runMsgs (mem0 : Nat) (msgs : List (Nat × Nat)) (s : Sys) : Sys × List Effect :=
  match msgs with
  | [] => (s, [])
  | m :: rest =>
    let s1 := UITaskStep mem0 m.1 m.2 s
    let s2 := runMsgs mem0 rest s1.1
    (s2.1, s1.2 ++ s2.2)

/-- The state at entry to the `UITask` loop: `currentstate = RUNNING`,
`currentplace = OUT` (`MSPI.c:249`, `MSPI.c:250`), the static module
variables zero-initialized, no semaphore posts yet. -/
def initSys : Sys :=
  { currentstate := SYS_STATE.RUNNING
    currentplace := SETTING_STATE.OUT
    whichOutput := 0
    nextPWMRate := 0
    nextSpiMsg := 0
    spiMsg := 0
    pwmrate := 0
    newSpiDataSemCount := 0
    newPwmRateSemCount := 0 }

/-! ## Synchronization objects of the SPI module (`SPI.c`)

`SPI.c:13`–`SPI.c:14` declare a mutex `SpiDataKey` and a semaphore
`NewSpiData`.  `getSpiData` (`SPI.c:81`–`SPI.c:85`, called by the
transmitter `SPITask` at `SPI.c:116`) passes `&NewSpiData` to
`OSMutexPend`/`OSMutexPost`, while `setSpiData` (`SPI.c:91`–`SPI.c:96`,
called by `UITask`) passes `&SpiDataKey`. -/

inductive SyncObj
  | SpiDataKey
  | NewSpiData
  deriving DecidableEq, Repr

/-- The object `getSpiData` pends on around its read of `spiMsg`
(`SPI.c:82`). -/
def getSpiData_pendObj : SyncObj := SyncObj.NewSpiData

/-- The object `setSpiData` pends on around its write of `spiMsg`
(`SPI.c:92`). -/
def setSpiData_pendObj : SyncObj := SyncObj.SpiDataKey

/-- Which of the two objects are currently held when they are used as
locks. -/
structure LockState where
  spiDataKeyHeld : Bool
  newSpiDataHeld : Bool
  deriving DecidableEq, Repr

/-- Acquire an object used as a lock: blocks (`none`) exactly when that
same object is already held. -/
def acquire (o : SyncObj) (ls : LockState) : Option LockState :=
  match o with
  | SyncObj.SpiDataKey =>
    if ls.spiDataKeyHeld then none else some { ls with spiDataKeyHeld := true }
  | SyncObj.NewSpiData =>
    if ls.newSpiDataHeld then none else some { ls with newSpiDataHeld := true }

/-- Both objects free. -/
def freeLocks : LockState := { spiDataKeyHeld := false, newSpiDataHeld := false }

/-! ## Fault delivery path (`SPI.c` and `UISPISrvTask`) -/

/-- SPI module fault state: the `INT8U` variable `spiFault` (`SPI.c:20`)
and the post counter of the `spiFaultFlag` semaphore (`SPI.c:19`). -/
structure SpiFaultSt where
  spiFault : Nat
  spiFaultFlagCount : Nat
  deriving DecidableEq, Repr

/-- Modelled from the spec: the fault-receipt path is absent from `src/`
(nothing there writes `spiFault` or posts `spiFaultFlag`; `SPI.c:102`
notes it "might need to be interrupt from digital input pin").  Per the
spec it stores the most recent 16-bit `FaultWord` received from the
device and signals the waiter once per event; storing into the declared
`INT8U spiFault` keeps the value modulo `2^8` by C assignment
semantics. -/
def storeFaultWord (w : Nat) (st : SpiFaultSt) : SpiFaultSt :=
  { spiFault := w % 256, spiFaultFlagCount := st.spiFaultFlagCount + 1 }

/-- `SPI.c:101`–`SPI.c:105`: `SPIPend` pends on `spiFaultFlag` and returns
the `INT8U` variable `spiFault`. -/
def SPIPend (st : SpiFaultSt) : Nat := st.spiFault

/-- `MSPI.c:472`–`MSPI.c:487`: one iteration of `UISPISrvTask` — pend on
`SPIPend`, then post the value to `UITask` as a message of size
`sizeof(INT16U) = 2`. -/
def UISPISrvForward (st : SpiFaultSt) : Nat × Nat := (2, SPIPend st)

/-! ## PWM module (`PWM.c`) -/

/-- PWM module state: the variable `pwm_value` (`PWM.c:35`) and the post
counter of the `PWMChgFlag` semaphore (`PWM.c:34`). -/
structure PwmModuleSt where
  pwm_value : Nat
  pwmChgFlagCount : Nat
  deriving DecidableEq, Repr

/-- `PWM.c:136`–`PWM.c:144`: `PWMRate` posts `PWMChgFlag` and returns
`pwm_value`. -/
def PWMRate (st : PwmModuleSt) : Nat × PwmModuleSt :=
  (st.pwm_value, { st with pwmChgFlagCount := st.pwmChgFlagCount + 1 })

/-- Module state after `PWMInit` (`PWM.c:35`, `PWM.c:89`): `pwm_value = 0`
and the semaphore created with count 0. -/
def pwmInitSt : PwmModuleSt := { pwm_value := 0, pwmChgFlagCount := 0 }

/-- The repository operations that touch PWM-related state: `setPwmRate`
and `getPwmRate` in `MSPI.c` (which access the `MSPI.c` variable
`pwmrate`), and `PWMRate` in `PWM.c`. -/
inductive PwmOp
  | setRate (v : Nat)
  | getRate
  | rate
  deriving DecidableEq, Repr

/-- The PWM-related mutable state of the whole repository: the `MSPI.c`
variable `pwmrate` (`MSPI.c:108`) and the PWM module state. -/
structure PwmWorld where
  pwmrate : Nat
  pwmMod : PwmModuleSt
  deriving DecidableEq, Repr

/-- Apply one PWM-related operation.  `setRate v` is
`setPwmRate` (`MSPI.c:236`–`MSPI.c:241`): it stores into the `MSPI.c`
variable `pwmrate` only.  `getRate` is `getPwmRate`
(`MSPI.c:223`–`MSPI.c:227`): a read, no write.  `rate` is `PWMRate`.
No operation in the repository writes `pwm_value`. -/
def pwmApply (o : PwmOp) (w : PwmWorld) : PwmWorld :=
  match o with
  | PwmOp.setRate v => { w with pwmrate := v % 256 }
  | PwmOp.getRate => w
  | PwmOp.rate => { w with pwmMod := (PWMRate w.pwmMod).2 }

/-- Initial PWM-related state. -/
def pwmInitWorld : PwmWorld := { pwmrate := 0, pwmMod := pwmInitSt }

/-- Claim-side table: the one-hot mask of output channel `i + 1`
(`i < 8`). -/
def channelMask (i : Nat) : Nat := 2 ^ i

/-- Claim-side table: the display name of output channel `i + 1`
(`i < 8`). -/
def outName (i : Nat) : String :=
  match i with
  | 0 => OUT_ONE_MSG
  | 1 => OUT_TWO_MSG
  | 2 => OUT_THR_MSG
  | 3 => OUT_FOU_MSG
  | 4 => OUT_FIV_MSG
  | 5 => OUT_SIX_MSG
  | 6 => OUT_SEV_MSG
  | 7 => OUT_EGT_MSG
  | _ => MULIT_FAULT_MSG

/-- Trace filter: is this effect a `setPwmRate` call? -/
def isPwmCall : Effect → Bool
  | Effect.setPwmCall _ => true
  | _ => false

/-- Trace filter: is this effect a `setSpiData` call? -/
def isSpiCall : Effect → Bool
  | Effect.setSpiCall _ => true
  | _ => false

/-- Trace filter: is this effect a `setSpiData` or `setPwmRate` call? -/
def isSendCall (e : Effect) : Bool := isSpiCall e || isPwmCall e

/-- A concrete `UITask` state sitting in `ADJUST` / `SELECT_OUTPUT`
(reached from `initSys` by the `A` key). -/
def adjustOutSys : Sys :=
  { initSys with currentstate := SYS_STATE.ADJUST, currentplace := SETTING_STATE.OUT }

/-! ## Helper lemmas about the step function -/

/-- A key other than `D` arriving while `currentstate = ADJUST` is handled
by the `switch (currentplace)` dispatch. -/
theorem UITaskStep_adjust (mem0 k : Nat) (s : Sys)
    (hs : s.currentstate = SYS_STATE.ADJUST) (hk : k ≠ D_KEY) :
    UITaskStep mem0 1 k s = adjustStep mem0 k s := by
  unfold UITaskStep
  rw [if_pos rfl, if_neg hk, if_neg, if_pos ⟨hs, hk⟩]
  rintro ⟨h1, -⟩
  rw [hs] at h1
  exact SYS_STATE.noConfusion h1

/-- `adjustStep` in sub-state `OUT` is `adjustOutStep`. -/
theorem adjustStep_out (mem0 k : Nat) (s : Sys)
    (hp : s.currentplace = SETTING_STATE.OUT) :
    adjustStep mem0 k s = adjustOutStep k s := by
  unfold adjustStep
  rw [hp]

/-- `adjustStep` in sub-state `TENS` is `adjustTensStep`. -/
theorem adjustStep_tens (mem0 k : Nat) (s : Sys)
    (hp : s.currentplace = SETTING_STATE.TENS) :
    adjustStep mem0 k s = adjustTensStep k s := by
  unfold adjustStep
  rw [hp]

/-- `adjustStep` in sub-state `ONES` is `adjustOnesStep`. -/
theorem adjustStep_ones (mem0 k : Nat) (s : Sys)
    (hp : s.currentplace = SETTING_STATE.ONES) :
    adjustStep mem0 k s = adjustOnesStep mem0 k s := by
  unfold adjustStep
  rw [hp]

/-- A nonzero 2-byte message always takes the fault branch
(`MSPI.c:404`–`MSPI.c:431`), whatever the current state. -/
theorem UITaskStep_fault (mem0 w : Nat) (s : Sys) (hw : w ≠ 0) :
    UITaskStep mem0 2 w s =
      ({ s with currentstate := SYS_STATE.FAULT },
       [Effect.lcdHideLayer UI_LAYER,
        Effect.lcdDispString STATUS_ROW FIRST_COL FAULT_LAYER FAULT_MSG,
        Effect.lcdDispString STATUS_ROW FAULT_MSG_OUT_COLLEM FAULT_LAYER
          (faultOutMsg w),
        Effect.lcdShowLayer FAULT_LAYER]) := by
  unfold UITaskStep
  rw [if_neg (by norm_num), if_pos rfl, if_neg]
  rintro ⟨h1, -⟩
  exact hw (by simpa [NO_FAULT] using h1)

/-- The equality chain of `MSPI.c:410`–`MSPI.c:428` maps the one-hot mask
of channel `i + 1` to that channel's name. -/
theorem faultOutMsg_mask (i : Nat) (hi : i < 8) :
    faultOutMsg (channelMask i) = outName i := by
  interval_cases i <;> decide

/-- The equality chain of `MSPI.c:410`–`MSPI.c:428` maps every value that
is not one of the eight masks to the generic multi-fault text. -/
theorem faultOutMsg_generic (w : Nat) (h : ∀ i, i < 8 → w ≠ channelMask i) :
    faultOutMsg w = MULIT_FAULT_MSG := by
  have h0 := h 0 (by norm_num)
  have h1 := h 1 (by norm_num)
  have h2 := h 2 (by norm_num)
  have h3 := h 3 (by norm_num)
  have h4 := h 4 (by norm_num)
  have h5 := h 5 (by norm_num)
  have h6 := h 6 (by norm_num)
  have h7 := h 7 (by norm_num)
  norm_num [channelMask] at h0 h1 h2 h3 h4 h5 h6 h7
  simp only [faultOutMsg, OUTPUT_ONE_MASK, OUTPUT_TWO_MASK, OUTPUT_THR_MASK,
    OUTPUT_FOU_MASK, OUTPUT_FIV_MASK, OUTPUT_SIX_MASK, OUTPUT_SEV_MASK,
    OUTPUT_EGT_MASK]
  rw [if_neg h0, if_neg h1, if_neg h2, if_neg h3, if_neg h4, if_neg h5,
    if_neg h6, if_neg h7]

/-- `MSPI.c:335`–`MSPI.c:345`: a digit key in `TENS` stores
`10*(key-48) + (rate - 10*(rate/10))` and advances to `ONES`. -/
theorem adjustTensStep_digit (k : Nat) (s : Sys) (h1 : ZERO_KEY ≤ k)
    (h2 : k ≤ NIN_KEY) (hr : s.nextPWMRate ≤ 99) :
    (adjustTensStep k s).1.nextPWMRate
      = 10 * (k - NUMBER_KEY_TO_DEC_FACTOR) + s.nextPWMRate % 10 ∧
    (adjustTensStep k s).1.currentplace = SETTING_STATE.ONES ∧
    (adjustTensStep k s).1.currentstate = s.currentstate := by
  unfold adjustTensStep
  rw [if_pos ⟨h1, h2⟩]
  refine ⟨?_, rfl, rfl⟩
  show (10 * (k - NUMBER_KEY_TO_DEC_FACTOR)
          + (s.nextPWMRate - 10 * (s.nextPWMRate / 10))) % 256
        = 10 * (k - NUMBER_KEY_TO_DEC_FACTOR) + s.nextPWMRate % 10
  simp only [ZERO_KEY, NIN_KEY, NUMBER_KEY_TO_DEC_FACTOR] at h1 h2 ⊢
  omega

/-- `MSPI.c:347`–`MSPI.c:350`: the back key in `TENS` returns to `OUT`
and clears the accumulator. -/
theorem adjustTensStep_back (s : Sys) :
    adjustTensStep B_KEY s
      = ({ s with currentplace := SETTING_STATE.OUT, nextPWMRate := 0 },
         [Effect.lcdCursor UI_ROW UI_OUT_COL UI_LAYER CURSOR_ON CURSOR_BLINK]) := by
  unfold adjustTensStep
  rw [if_neg (by decide), if_pos rfl]

/-- `MSPI.c:356`–`MSPI.c:359`: a digit key in `ONES` stores
`(key-48) + 10*(rate/10)` and stays in `ONES`. -/
theorem adjustOnesStep_digit (mem0 k : Nat) (s : Sys) (h1 : ZERO_KEY ≤ k)
    (h2 : k ≤ NIN_KEY) (hr : s.nextPWMRate ≤ 99) :
    (adjustOnesStep mem0 k s).1.nextPWMRate
      = 10 * (s.nextPWMRate / 10) + (k - NUMBER_KEY_TO_DEC_FACTOR) ∧
    (adjustOnesStep mem0 k s).1.currentplace = s.currentplace ∧
    (adjustOnesStep mem0 k s).1.currentstate = s.currentstate := by
  unfold adjustOnesStep
  rw [if_pos ⟨h1, h2⟩]
  refine ⟨?_, rfl, rfl⟩
  show ((k - NUMBER_KEY_TO_DEC_FACTOR) + 10 * (s.nextPWMRate / 10)) % 256
        = 10 * (s.nextPWMRate / 10) + (k - NUMBER_KEY_TO_DEC_FACTOR)
  simp only [ZERO_KEY, NIN_KEY, NUMBER_KEY_TO_DEC_FACTOR] at h1 h2 ⊢
  omega

/-- `MSPI.c:361`–`MSPI.c:363`: the back key in `ONES` returns to `TENS`
with the accumulator untouched. -/
theorem adjustOnesStep_back (mem0 : Nat) (s : Sys) :
    adjustOnesStep mem0 B_KEY s
      = ({ s with currentplace := SETTING_STATE.TENS },
         [Effect.lcdCursor UI_ROW UI_PWM_TENS UI_LAYER CURSOR_ON CURSOR_BLINK]) := by
  unfold adjustOnesStep
  rw [if_neg (by decide), if_pos rfl]

/-! ## Claim theorems -/

/-- Claim C1.  The claim says the emergency-stop key stores `0x0000` as
the SerialLink command word and `0` as the duty cycle.  In the source,
`MSPI.c:274` and `MSPI.c:275` pass the integer constant
`EMERGENCY_STOP = 0` in the pointer position of `setSpiData` /
`setPwmRate`, i.e. a null pointer; the callees dereference it, so what is
stored is the flash word at address `0`, not the constant.  Evaluated
here with that word equal to `0x1234`: the state does return to
`RUNNING`, but the command word becomes `0x1234 ≠ EMERGENCY_STOP` and the
duty cycle becomes `0x34 ≠ 0`. -/
theorem c1_emergency_stop_null_deref :
    (UITaskStep 0x1234 1 D_KEY initSys).1.currentstate = SYS_STATE.RUNNING ∧
    (UITaskStep 0x1234 1 D_KEY initSys).1.spiMsg = 0x1234 ∧
    (UITaskStep 0x1234 1 D_KEY initSys).1.spiMsg ≠ EMERGENCY_STOP ∧
    (UITaskStep 0x1234 1 D_KEY initSys).1.pwmrate = 0x34 ∧
    (UITaskStep 0x1234 1 D_KEY initSys).1.pwmrate ≠ 0 := by
  decide

/-- Claim C2.  Committed `ADJUST` episodes.  First scenario: keys
`A, 7, 0, 0, A` — the composed duty cycle is 0, so the source stores
`nextSpiMsg` directly and issues no PWM call, but `nextSpiMsg` for the
chosen channel 7 was set at `MSPI.c:325` to `OUTPUT_THR_MASK = 4`, not to
channel 7's one-hot mask `OUTPUT_SEV_MASK = 64` (the mask the fault
decoder at `MSPI.c:422` associates with `OUT7`).  Second scenario: keys
`A, 4, 0, 7, A` — duty 7 is nonzero, so `MSPI.c:371` is meant to store the
emergency-stop pattern first, but passes `EMERGENCY_STOP = 0` as a null
pointer, so the first stored value is the word at address `0` (here
`0x1234`), not `0x0000`; the PWM value `7 = 0*10 + 7` is then stored
correctly. -/
theorem c2_commit_stores_wrong_word :
    ((runMsgs 0 [(1, A_KEY), (1, SEV_KEY), (1, ZERO_KEY), (1, ZERO_KEY), (1, A_KEY)]
        initSys).1.spiMsg = OUTPUT_THR_MASK ∧
     (runMsgs 0 [(1, A_KEY), (1, SEV_KEY), (1, ZERO_KEY), (1, ZERO_KEY), (1, A_KEY)]
        initSys).1.whichOutput = 7 ∧
     OUTPUT_THR_MASK ≠ OUTPUT_SEV_MASK ∧
     ((runMsgs 0 [(1, A_KEY), (1, SEV_KEY), (1, ZERO_KEY), (1, ZERO_KEY), (1, A_KEY)]
        initSys).2.filter (fun e => isPwmCall e)) = []) ∧
    (((runMsgs 0x1234 [(1, A_KEY), (1, FOUR_KEY), (1, ZERO_KEY), (1, SEV_KEY), (1, A_KEY)]
        initSys).2.filter (fun e => isSendCall e))
        = [Effect.setSpiCall 0x1234, Effect.setPwmCall 7] ∧
     (0x1234 : Nat) ≠ EMERGENCY_STOP) := by
  decide

/-- Claim C3.  A fault-link message carrying `NO_FAULT = 0` while the UI
is already `RUNNING` is claimed to be a no-op.  In the source the
`msg_size == 2` dispatch (`MSPI.c:399`) only checks
`copiedmsg == NO_FAULT && currentstate == FAULT`; with `currentstate ==
RUNNING` a zero fault word falls into the `else` "Fault Detected" branch,
which hides the status layer, shows `"Fault: Many"` (zero matches none of
the eight masks), and sets the state to `FAULT`. -/
theorem c3_zero_fault_while_running_faults :
    (UITaskStep 0 2 NO_FAULT initSys).1.currentstate = SYS_STATE.FAULT ∧
    (UITaskStep 0 2 NO_FAULT initSys).2 =
      [Effect.lcdHideLayer UI_LAYER,
       Effect.lcdDispString STATUS_ROW FIRST_COL FAULT_LAYER FAULT_MSG,
       Effect.lcdDispString STATUS_ROW FAULT_MSG_OUT_COLLEM FAULT_LAYER MULIT_FAULT_MSG,
       Effect.lcdShowLayer FAULT_LAYER] := by
  decide

/-- Claim C4.  The spec says reads and writes of the shared command word
are guarded by the same mutual-exclusion lock.  In the source the writer
`setSpiData` pends on the `SpiDataKey` mutex (`SPI.c:92`), but the reader
`getSpiData` pends on the `NewSpiData` semaphore object (`SPI.c:82`).
They are different objects, so from the all-free state the reader's
acquire succeeds even while the writer is inside its critical section
(both end up held simultaneously), whereas a second acquire of the
writer's own object would block. -/
theorem c4_reader_writer_different_lock :
    getSpiData_pendObj ≠ setSpiData_pendObj ∧
    Option.bind (acquire setSpiData_pendObj freeLocks) (acquire getSpiData_pendObj)
      = some { spiDataKeyHeld := true, newSpiDataHeld := true } ∧
    Option.bind (acquire setSpiData_pendObj freeLocks) (acquire setSpiData_pendObj)
      = none := by
  decide

/-- Claim C5.  Every nonzero fault-link message value drives the UI to
`FAULT`; the banner names channel `i + 1` exactly when the value equals
that channel's one-hot mask `2^i`, and shows the generic multi-fault text
for every other nonzero value — the decode is the exact-equality chain of
`MSPI.c:410`–`MSPI.c:428`, not a population count. -/
theorem c5_fault_decode_one_hot (mem0 w : Nat) (s : Sys) (hw : w ≠ 0) :
    (UITaskStep mem0 2 w s).1.currentstate = SYS_STATE.FAULT ∧
    (∀ i, i < 8 → w = channelMask i →
      Effect.lcdDispString STATUS_ROW FAULT_MSG_OUT_COLLEM FAULT_LAYER (outName i)
        ∈ (UITaskStep mem0 2 w s).2) ∧
    ((∀ i, i < 8 → w ≠ channelMask i) →
      Effect.lcdDispString STATUS_ROW FAULT_MSG_OUT_COLLEM FAULT_LAYER MULIT_FAULT_MSG
        ∈ (UITaskStep mem0 2 w s).2) := by
  rw [UITaskStep_fault mem0 w s hw]
  refine ⟨rfl, ?_, ?_⟩
  · intro i hi hwi
    rw [hwi, faultOutMsg_mask i hi]
    simp
  · intro h
    rw [faultOutMsg_generic w h]
    simp

/-- Claim C5, witness: the fault word `4 = 2^2` lands in `FAULT` with the
`OUT3` banner. -/
theorem c5_fault_decode_one_hot_witness :
    (4 : Nat) ≠ 0 ∧
    Effect.lcdDispString STATUS_ROW FAULT_MSG_OUT_COLLEM FAULT_LAYER (outName 2)
      ∈ (UITaskStep 0 2 4 initSys).2 :=
  ⟨by decide, (c5_fault_decode_one_hot 0 4 initSys (by decide)).2.1 2 (by decide) (by decide)⟩

/-- Claim C6.  The claim says the stored duty cycle is always in
`[0, 99]` because every value passed to `setPwmRate` is either the
emergency-stop zero or a two-digit composition.  But the emergency-stop
path (`MSPI.c:275`) passes `(INT8U)EMERGENCY_STOP = 0` in the pointer
position, a null pointer, so `setPwmRate` stores the byte at address `0`.
With that byte equal to `200`, one `D` key press from the initial state
leaves `pwmrate = 200 > 99`. -/
theorem c6_pwmrate_can_exceed_99 :
    (UITaskStep 200 1 D_KEY initSys).1.pwmrate = 200 ∧
    ¬ (UITaskStep 200 1 D_KEY initSys).1.pwmrate ≤ 99 := by
  decide

/-- Claim C7.  The duty-cycle accumulator's two digits are independent in
`ADJUST`: a digit key in `TENS` sets the tens digit and preserves the
ones digit (advancing to `ONES`); a digit key in `ONES` sets the ones
digit and preserves the tens digit, so the value is `tens*10 + ones`;
back from `ONES` returns to `TENS` preserving the accumulator; back from
`TENS` returns to `OUT` clearing the accumulator to `0`. -/
theorem c7_digit_accumulator (mem0 k : Nat) (s : Sys)
    (hs : s.currentstate = SYS_STATE.ADJUST) (hr : s.nextPWMRate ≤ 99) :
    (s.currentplace = SETTING_STATE.TENS → ZERO_KEY ≤ k → k ≤ NIN_KEY →
      (UITaskStep mem0 1 k s).1.nextPWMRate
          = 10 * (k - NUMBER_KEY_TO_DEC_FACTOR) + s.nextPWMRate % 10 ∧
      (UITaskStep mem0 1 k s).1.nextPWMRate / 10 = k - NUMBER_KEY_TO_DEC_FACTOR ∧
      (UITaskStep mem0 1 k s).1.nextPWMRate % 10 = s.nextPWMRate % 10 ∧
      (UITaskStep mem0 1 k s).1.currentplace = SETTING_STATE.ONES) ∧
    (s.currentplace = SETTING_STATE.ONES → ZERO_KEY ≤ k → k ≤ NIN_KEY →
      (UITaskStep mem0 1 k s).1.nextPWMRate
          = 10 * (s.nextPWMRate / 10) + (k - NUMBER_KEY_TO_DEC_FACTOR) ∧
      (UITaskStep mem0 1 k s).1.nextPWMRate % 10 = k - NUMBER_KEY_TO_DEC_FACTOR ∧
      (UITaskStep mem0 1 k s).1.nextPWMRate / 10 = s.nextPWMRate / 10) ∧
    (s.currentplace = SETTING_STATE.ONES →
      (UITaskStep mem0 1 B_KEY s).1.currentplace = SETTING_STATE.TENS ∧
      (UITaskStep mem0 1 B_KEY s).1.nextPWMRate = s.nextPWMRate) ∧
    (s.currentplace = SETTING_STATE.TENS →
      (UITaskStep mem0 1 B_KEY s).1.currentplace = SETTING_STATE.OUT ∧
      (UITaskStep mem0 1 B_KEY s).1.nextPWMRate = 0) := by
  refine ⟨?_, ?_, ?_, ?_⟩
  · intro hp h1 h2
    have hkD : k ≠ D_KEY := by
      simp only [ZERO_KEY] at h1
      simp only [D_KEY]
      omega
    rw [UITaskStep_adjust mem0 k s hs hkD, adjustStep_tens mem0 k s hp]
    obtain ⟨hv, hpl, -⟩ := adjustTensStep_digit k s h1 h2 hr
    refine ⟨hv, ?_, ?_, hpl⟩
    · rw [hv]
      simp only [ZERO_KEY, NIN_KEY, NUMBER_KEY_TO_DEC_FACTOR] at h1 h2 ⊢
      omega
    · rw [hv]
      simp only [ZERO_KEY, NIN_KEY, NUMBER_KEY_TO_DEC_FACTOR] at h1 h2 ⊢
      omega
  · intro hp h1 h2
    have hkD : k ≠ D_KEY := by
      simp only [ZERO_KEY] at h1
      simp only [D_KEY]
      omega
    rw [UITaskStep_adjust mem0 k s hs hkD, adjustStep_ones mem0 k s hp]
    obtain ⟨hv, -, -⟩ := adjustOnesStep_digit mem0 k s h1 h2 hr
    refine ⟨hv, ?_, ?_⟩
    · rw [hv]
      simp only [ZERO_KEY, NIN_KEY, NUMBER_KEY_TO_DEC_FACTOR] at h1 h2 ⊢
      omega
    · rw [hv]
      simp only [ZERO_KEY, NIN_KEY, NUMBER_KEY_TO_DEC_FACTOR] at h1 h2 ⊢
      omega
  · intro hp
    rw [UITaskStep_adjust mem0 B_KEY s hs (by decide),
      adjustStep_ones mem0 B_KEY s hp, adjustOnesStep_back mem0 s]
    exact ⟨rfl, rfl⟩
  · intro hp
    rw [UITaskStep_adjust mem0 B_KEY s hs (by decide),
      adjustStep_tens mem0 B_KEY s hp, adjustTensStep_back s]
    exact ⟨rfl, rfl⟩

/-- Claim C7, witness: in `ADJUST`/`TENS` with accumulator `5`, the digit
key `9` yields `95 = 9*10 + 5`, moving to `ONES`. -/
theorem c7_digit_accumulator_witness :
    (UITaskStep 0 1 NIN_KEY
        { adjustOutSys with currentplace := SETTING_STATE.TENS, nextPWMRate := 5 }).1.nextPWMRate
      = 10 * (NIN_KEY - NUMBER_KEY_TO_DEC_FACTOR) + 5 % 10 ∧
    (UITaskStep 0 1 NIN_KEY
        { adjustOutSys with currentplace := SETTING_STATE.TENS, nextPWMRate := 5 }).1.nextPWMRate / 10
      = NIN_KEY - NUMBER_KEY_TO_DEC_FACTOR ∧
    (UITaskStep 0 1 NIN_KEY
        { adjustOutSys with currentplace := SETTING_STATE.TENS, nextPWMRate := 5 }).1.nextPWMRate % 10
      = 5 % 10 ∧
    (UITaskStep 0 1 NIN_KEY
        { adjustOutSys with currentplace := SETTING_STATE.TENS, nextPWMRate := 5 }).1.currentplace
      = SETTING_STATE.ONES :=
  (c7_digit_accumulator 0 NIN_KEY
      { adjustOutSys with currentplace := SETTING_STATE.TENS, nextPWMRate := 5 }
      rfl (by decide)).1 rfl (by decide) (by decide)

/-- Claim C8, counterexample.  The claim as stated says that in
`ADJUST`/`SELECT_OUTPUT` *every* key other than the channel-4 and
channel-7 keys leaves the UI state unchanged.  The emergency-stop key `D`
is such a key, yet it is handled before the state dispatch
(`MSPI.c:273`): from `ADJUST`/`SELECT_OUTPUT` it forces the state back to
`RUNNING` (and issues commands), so the state does change. -/
theorem c8_d_key_changes_state_in_select :
    D_KEY ≠ FOUR_KEY ∧ D_KEY ≠ SEV_KEY ∧
    adjustOutSys.currentstate = SYS_STATE.ADJUST ∧
    adjustOutSys.currentplace = SETTING_STATE.OUT ∧
    (UITaskStep 0 1 D_KEY adjustOutSys).1.currentstate ≠ adjustOutSys.currentstate := by
  decide

/-- Claim C8, amended: in `ADJUST`/`SELECT_OUTPUT`, only the channel-4
and channel-7 keys are recognized as channel-select keys; every other key
*except the emergency-stop key `D`* leaves the UI state, sub-state,
`PendingSelection` and display entirely unchanged (`MSPI.c:330`: "No
other Valid output is valid at this time"), so channels 1, 2, 3, 5, 6, 8
are never selectable from the keypad. -/
theorem c8_only_four_and_seven_selectable (mem0 k : Nat) (s : Sys)
    (hs : s.currentstate = SYS_STATE.ADJUST) (hp : s.currentplace = SETTING_STATE.OUT)
    (h4 : k ≠ FOUR_KEY) (h7 : k ≠ SEV_KEY) (hD : k ≠ D_KEY) :
    UITaskStep mem0 1 k s = (s, []) := by
  rw [UITaskStep_adjust mem0 k s hs hD, adjustStep_out mem0 k s hp]
  unfold adjustOutStep
  rw [if_neg h4, if_neg h7]

/-- Claim C8, witness: the channel-1 key does nothing in
`ADJUST`/`SELECT_OUTPUT`. -/
theorem c8_only_four_and_seven_selectable_witness :
    UITaskStep 0 1 ONE_KEY adjustOutSys = (adjustOutSys, []) :=
  c8_only_four_and_seven_selectable 0 ONE_KEY adjustOutSys rfl rfl
    (by decide) (by decide) (by decide)

/-- Claim C9.  `SPIPend` (`SPI.c:101`–`SPI.c:105`) returns the `INT8U`
variable `spiFault`, and `UISPISrvTask` forwards that value as the 2-byte
fault message.  Storing the 16-bit fault word into `spiFault` keeps only
its low byte, so the value the UI task receives is the fault word modulo
`2^8`, always below `256`, and any two fault words agreeing modulo `2^8`
are indistinguishable to the UI task — the upper byte never reaches it. -/
theorem c9_fault_word_truncated (w hi : Nat) (st : SpiFaultSt) :
    (UISPISrvForward (storeFaultWord w st)).1 = 2 ∧
    (UISPISrvForward (storeFaultWord w st)).2 = w % 256 ∧
    (UISPISrvForward (storeFaultWord w st)).2 < 256 ∧
    (UISPISrvForward (storeFaultWord (w + 256 * hi) st)).2
      = (UISPISrvForward (storeFaultWord w st)).2 := by
  refine ⟨rfl, rfl, Nat.mod_lt w (by norm_num), ?_⟩
  show (w + 256 * hi) % 256 = w % 256
  omega

/-- Claim C10.  `pwm_value` (`PWM.c:35`) is initialized to `0` and no
operation in the repository ever writes it (`setPwmRate` writes the
distinct `MSPI.c` variable `pwmrate`), so after any sequence of
`setPwmRate` / `getPwmRate` / `PWMRate` calls, `PWMRate` still returns
`0` — and, unlike a pure getter, it posts the `PWMChgFlag` semaphore on
every call. -/
theorem c10_PWMRate_always_zero (ops : List PwmOp) :
    (PWMRate (ops.foldl (fun w o => pwmApply o w) pwmInitWorld).pwmMod).1 = 0 ∧
    (PWMRate (ops.foldl (fun w o => pwmApply o w) pwmInitWorld).pwmMod).2.pwmChgFlagCount
      = (ops.foldl (fun w o => pwmApply o w) pwmInitWorld).pwmMod.pwmChgFlagCount + 1 := by
  have key : ∀ (l : List PwmOp) (w : PwmWorld),
      (l.foldl (fun w o => pwmApply o w) w).pwmMod.pwm_value = w.pwmMod.pwm_value := by
    intro l
    induction l with
    | nil => intro w; rfl
    | cons o t ih =>
      intro w
      rw [List.foldl_cons, ih]
      cases o <;> rfl
  exact ⟨key ops pwmInitWorld, rfl⟩
